import Mathlib

/-!
Verification of the FleetLogix data-warehouse ETL pipeline
(`FA_transform.py`, `FA_load.py`, `FA_main.py`).

Shallow embedding conventions:

* A pandas DataFrame of delivery records is a `List` of row structures.
  A nullable cell is an `Option`; a `none` models a null/NaN/NaT cell, and
  every pandas comparison involving a null evaluates to `False`, exactly as
  NaN comparisons do.
* Datetimes are rational epoch-second timestamps (`pd.to_datetime` is the
  identity on them); `.dt.total_seconds() / 60` becomes subtraction followed
  by division by 60.
* Floating point columns are modelled by `ℚ`.
* The warehouse table is a `List (Nat × α)`: the `DELIVERY_ID` key paired
  with the remaining (uninspected) column payload of the row.
* The external environment (configuration file, credentials, reachability of
  the warehouse) is a record of booleans, fixed for the duration of a run.
  A Python exception that escapes a function is `Except.error`; an exception
  that is caught inside the function is reflected in its ordinary result.
-/

/-- One raw extracted row, as consumed by `transform_delivery_data`
(`FA_transform.py`).  The columns the claims inspect are modelled as named
fields; `otherNulls` counts the null cells among the remaining source columns
of the row (dimension keys, tracking number, ...), which the quality score
aggregates but never inspects individually. -/
structure TRow where
  delivery_id : Nat
  scheduled_datetime : Option ℚ
  delivered_datetime : Option ℚ
  delivery_distance_km : Option ℚ
  package_weight_kg : Option ℚ
  fuel_efficiency_km_per_liter : Option ℚ
  delivery_fuel_consumed : Option ℚ
  delay_minutes : Option ℚ
  revenue_per_delivery : Option ℚ
  delivery_status : Option String
  vehicle_id : Option Nat
  driver_id : Option Nat
  otherNulls : Nat
deriving DecidableEq

/-- A transformed row: the raw row plus the five columns computed in steps
1-5 of `transform_delivery_data` (`FA_transform.py` lines 31-63). -/
structure XRow where
  base : TRow
  delivery_duration_minutes : Option ℚ
  delay_minutes_calculated : Option ℚ
  on_time_status : Bool
  fuel_efficiency_calculated : Option ℚ
  revenue_per_delivery_calculated : Option ℚ
deriving DecidableEq

/-- `(pd.to_datetime(delivered) - pd.to_datetime(scheduled)).dt.total_seconds() / 60`:
null (NaT) in either operand propagates to a null result. -/
def minutesDiff (delivered scheduled : Option ℚ) : Option ℚ :=
  match delivered, scheduled with
  | some d, some s => some ((d - s) / 60)
  | _, _ => none

/-- Steps 1-5 of `transform_delivery_data` on one row:
`delivery_duration_minutes` and `delay_minutes_calculated` are both the
delivered-minus-scheduled difference in minutes; `on_time_status` is
`delay_minutes <= 0` (`False` on a null, as for NaN); the remaining two
columns follow the `np.where` expressions of the source. -/
def transformRow (r : TRow) : XRow where
  base := r
  delivery_duration_minutes := minutesDiff r.delivered_datetime r.scheduled_datetime
  delay_minutes_calculated := minutesDiff r.delivered_datetime r.scheduled_datetime
  on_time_status :=
    match r.delay_minutes with
    | some d => decide (d ≤ 0)
    | none => false
  fuel_efficiency_calculated :=
    match r.delivery_fuel_consumed with
    | some c => if 0 < c then r.delivery_distance_km.map (fun d => d / c) else some 0
    | none => some 0
  revenue_per_delivery_calculated :=
    if r.delivery_status = some "delivered" then r.revenue_per_delivery else some 0

/-- `df[col] > c` on a nullable column: `False` on null, as for NaN. -/
def colGt (o : Option ℚ) (c : ℚ) : Bool :=
  match o with
  | some x => decide (c < x)
  | none => false

/-- `df[col] < c` on a nullable column: `False` on null, as for NaN. -/
def colLt (o : Option ℚ) (c : ℚ) : Bool :=
  match o with
  | some x => decide (x < c)
  | none => false

/-- `df[col] >= c` on a nullable column: `False` on null, as for NaN. -/
def colGe (o : Option ℚ) (c : ℚ) : Bool :=
  match o with
  | some x => decide (c ≤ x)
  | none => false

/-- `df[a] >= df[b]` between two nullable columns: `False` if either is null. -/
def colGe2 (a b : Option ℚ) : Bool :=
  match a, b with
  | some x, some y => decide (y ≤ x)
  | _, _ => false

/-- The combined validation mask of `validate_data_quality`
(`FA_transform.py` lines 89-102), conjunct for conjunct in source order. -/
def valid_row (x : XRow) : Bool :=
  colGt x.delivery_duration_minutes 0 &&
  colLt x.delivery_duration_minutes 1440 &&
  colGt x.base.delivery_distance_km 0 &&
  colLt x.base.delivery_distance_km 5000 &&
  colGe x.base.package_weight_kg 0 &&
  colLt x.base.package_weight_kg 10000 &&
  colGt x.base.fuel_efficiency_km_per_liter 0 &&
  colLt x.base.fuel_efficiency_km_per_liter 50 &&
  colGe2 x.base.delivered_datetime x.base.scheduled_datetime &&
  x.base.delivery_status.isSome &&
  x.base.vehicle_id.isSome &&
  x.base.driver_id.isSome

/-- `validate_data_quality` (`FA_transform.py` lines 84-113): keep exactly the
rows satisfying the mask; failing rows are dropped (and counted for a log
message), no exception is raised. -/
def validate_data_quality (l : List XRow) : List XRow :=
  l.filter valid_row

/-- The validation predicate as the specification words it (spec section 4.1 /
claim C5): duration in `(0, 1440)`, distance in `(0, 5000)`, weight in
`[0, 10000)`, efficiency in `(0, 50)`, `delivered >= scheduled`, and the
three non-null requirements.  Written from the spec, to be compared with
`valid_row` (which is written from the source). -/
def specValidRow (x : XRow) : Bool :=
  (match x.delivery_duration_minutes with
   | some d => decide (0 < d ∧ d < 1440)
   | none => false) &&
  (match x.base.delivery_distance_km with
   | some d => decide (0 < d ∧ d < 5000)
   | none => false) &&
  (match x.base.package_weight_kg with
   | some w => decide (0 ≤ w ∧ w < 10000)
   | none => false) &&
  (match x.base.fuel_efficiency_km_per_liter with
   | some f => decide (0 < f ∧ f < 50)
   | none => false) &&
  (match x.base.delivered_datetime, x.base.scheduled_datetime with
   | some d, some s => decide (s ≤ d)
   | _, _ => false) &&
  x.base.delivery_status.isSome &&
  x.base.vehicle_id.isSome &&
  x.base.driver_id.isSome

/-- Count a null cell. -/
def optNull {β : Type} (o : Option β) : Nat :=
  if o.isNone then 1 else 0

/-- Null cells contributed by one raw row (its twelve modelled columns — the
integer key `delivery_id` is never null — plus the unmodelled remainder). -/
def nullCellsBase (r : TRow) : Nat :=
  optNull r.scheduled_datetime + optNull r.delivered_datetime +
  optNull r.delivery_distance_km + optNull r.package_weight_kg +
  optNull r.fuel_efficiency_km_per_liter + optNull r.delivery_fuel_consumed +
  optNull r.delay_minutes + optNull r.revenue_per_delivery +
  optNull r.delivery_status + optNull r.vehicle_id + optNull r.driver_id +
  r.otherNulls

/-- Null cells of one transformed row: the raw cells plus the computed
columns that can be null (`on_time_status` and the transformation timestamp
are never null). -/
def nullCells (x : XRow) : Nat :=
  nullCellsBase x.base + optNull x.delivery_duration_minutes +
  optNull x.delay_minutes_calculated + optNull x.fuel_efficiency_calculated +
  optNull x.revenue_per_delivery_calculated

/-- `len(df.columns)` at the moment the quality score is computed: the twelve
modelled raw columns, `extra` unmodelled raw columns, the five computed
columns, and `transformation_timestamp`. -/
def numColumns (extra : Nat) : Nat := 18 + extra

/-- `df.isnull().sum().sum()`. -/
def totalNulls (l : List XRow) : Nat := (l.map nullCells).sum

/-- `df.isnull().sum().sum() / (len(df) * len(df.columns))`. -/
def nullFraction (extra : Nat) (l : List XRow) : ℚ :=
  (totalNulls l : ℚ) / ((l.length : ℚ) * (numColumns extra : ℚ))

/-- `(df['fuel_efficiency_km_per_liter'] < 5) | (df['fuel_efficiency_km_per_liter'] > 30)`. -/
def extremeEff (x : XRow) : Bool :=
  colLt x.base.fuel_efficiency_km_per_liter 5 ||
  colGt x.base.fuel_efficiency_km_per_liter 30

/-- `(df['delivery_duration_minutes'] < 30) | (df['delivery_duration_minutes'] > 600)`. -/
def extremeDur (x : XRow) : Bool :=
  colLt x.delivery_duration_minutes 30 || colGt x.delivery_duration_minutes 600

/-- `df['delay_minutes'] > 240`. -/
def extremeDelay (x : XRow) : Bool :=
  colGt x.base.delay_minutes 240

/-- Fraction of rows with extreme fuel efficiency. -/
def extremeEffFraction (l : List XRow) : ℚ :=
  (l.countP extremeEff : ℚ) / (l.length : ℚ)

/-- Fraction of rows with extreme duration. -/
def extremeDurFraction (l : List XRow) : ℚ :=
  (l.countP extremeDur : ℚ) / (l.length : ℚ)

/-- Fraction of rows with delay above four hours. -/
def extremeDelayFraction (l : List XRow) : ℚ :=
  (l.countP extremeDelay : ℚ) / (l.length : ℚ)

/-- `calculate_quality_score` (`FA_transform.py` lines 152-177): start from
100, subtract the four weighted penalties in source order, clamp with
`max(0, min(100, score))`. -/
def calculate_quality_score (extra : Nat) (l : List XRow) : ℚ :=
  max 0 (min 100
    (100 - nullFraction extra l * 50 - extremeEffFraction l * 20 -
      extremeDurFraction l * 15 - extremeDelayFraction l * 10))

/-- `transform_delivery_data` (`FA_transform.py` lines 21-82): on an empty
input return it unchanged; otherwise compute the derived columns, validate,
verify the dimension keys (a pure logging step, the identity on the batch),
and broadcast the batch-level quality score onto every surviving row. -/
def transform_delivery_data (extra : Nat) (raw : List TRow) : List (XRow × ℚ) :=
  if raw.isEmpty then []
  else
    let cleaned := validate_data_quality (raw.map transformRow)
    cleaned.map (fun x => (x, calculate_quality_score extra cleaned))

/-- `validate_snowflake_compatibility` (`FA_transform.py` lines 313-360):
fails only when a critical key column contains a null (of the modelled
columns: `vehicle_id`, `driver_id`; `delivery_id` is an integer and never
null); every other check only warns. -/
def validate_snowflake_compatibility (l : List (XRow × ℚ)) : Bool :=
  l.all (fun p => p.1.base.vehicle_id.isSome && p.1.base.driver_id.isSome)

/-- `transform_complete_pipeline` (`FA_transform.py` lines 362-394).
`prepare_for_snowflake` only projects, renames and rounds columns and is
modelled as the identity on the modelled content (no claim concerns it). -/
def transform_complete_pipeline (extra : Nat) (raw : List TRow) : List (XRow × ℚ) :=
  let td := transform_delivery_data extra raw
  if td.isEmpty then []
  else if validate_snowflake_compatibility td then td
  else []

/-- A fully valid concrete row used for witnesses and boundary checks:
scheduled at epoch second 0, delivered one hour later. -/
def gRow : TRow where
  delivery_id := 1
  scheduled_datetime := some 0
  delivered_datetime := some 3600
  delivery_distance_km := some 100
  package_weight_kg := some 10
  fuel_efficiency_km_per_liter := some 10
  delivery_fuel_consumed := some 8
  delay_minutes := some 0
  revenue_per_delivery := some 20
  delivery_status := some "delivered"
  vehicle_id := some 7
  driver_id := some 9
  otherNulls := 0

theorem valid_row_eq_spec (x : XRow) : valid_row x = specValidRow x := by
  unfold valid_row specValidRow colGt colLt colGe colGe2
  cases x.delivery_duration_minutes <;>
    cases x.base.delivery_distance_km <;>
      cases x.base.package_weight_kg <;>
        cases x.base.fuel_efficiency_km_per_liter <;>
          cases x.base.delivered_datetime <;>
            cases x.base.scheduled_datetime <;>
              simp [Bool.decide_and, Bool.and_assoc]

/-- Claim C5: the Validator returns exactly the subset of input rows
satisfying all the spec's bounds simultaneously; distance 5000 and 0 are
rejected at the boundary while 4999.99 is accepted; failing rows are dropped
(no exception: the embedding is a total filter). -/
theorem claim_C5 :
    (∀ l : List XRow, validate_data_quality l = l.filter specValidRow) ∧
    validate_data_quality [transformRow { gRow with delivery_distance_km := some 5000 }] = [] ∧
    validate_data_quality [transformRow { gRow with delivery_distance_km := some (4999.99 : ℚ) }]
      = [transformRow { gRow with delivery_distance_km := some (4999.99 : ℚ) }] ∧
    validate_data_quality [transformRow { gRow with delivery_distance_km := some 0 }] = [] := by
  refine ⟨fun l => List.filter_congr (fun x _ => valid_row_eq_spec x), ?_, ?_, ?_⟩
  · simp [validate_data_quality, valid_row, transformRow, gRow, colGt, colLt, colGe, colGe2,
      minutesDiff]
  · simp [validate_data_quality, valid_row, transformRow, gRow, colGt, colLt, colGe, colGe2,
      minutesDiff]
    norm_num
  · simp [validate_data_quality, valid_row, transformRow, gRow, colGt, colLt, colGe, colGe2,
      minutesDiff]

/-- Claim C6: for a non-empty validated batch the quality score is exactly
`max(0, min(100, 100 - 50·nullFrac - 20·effFrac - 15·durFrac - 10·delayFrac))`,
and `transform_delivery_data` broadcasts this single batch-level value onto
every row of the batch. -/
theorem claim_C6 (extra : Nat) (l : List XRow) (raw : List TRow) (h : l ≠ []) :
    calculate_quality_score extra l
      = max 0 (min 100
          (100 - 50 * nullFraction extra l - 20 * extremeEffFraction l -
            15 * extremeDurFraction l - 10 * extremeDelayFraction l)) ∧
    ∀ p ∈ transform_delivery_data extra raw,
      p.2 = calculate_quality_score extra (validate_data_quality (raw.map transformRow)) := by
  constructor
  · unfold calculate_quality_score
    congr 2
    ring
  · intro p hp
    unfold transform_delivery_data at hp
    cases hraw : raw.isEmpty <;> simp [hraw, List.mem_map] at hp
    obtain ⟨x, _, hx⟩ := hp
    rw [← hx]

/-- Witness for claim C6 at a concrete one-row batch. -/
theorem claim_C6_witness :
    calculate_quality_score 0 [transformRow gRow]
      = max 0 (min 100
          (100 - 50 * nullFraction 0 [transformRow gRow] -
            20 * extremeEffFraction [transformRow gRow] -
            15 * extremeDurFraction [transformRow gRow] -
            10 * extremeDelayFraction [transformRow gRow])) ∧
    ∀ p ∈ transform_delivery_data 0 [gRow],
      p.2 = calculate_quality_score 0 (validate_data_quality ([gRow].map transformRow)) :=
  claim_C6 0 [transformRow gRow] [gRow] (by simp)

/-- Claim C9: every row surviving validation has non-null scheduled and
delivered datetimes; a row with a null `delivered_datetime` fails the
`delivered >= scheduled` comparison (NaT compares `False`) and is dropped. -/
theorem claim_C9 :
    (∀ l : List XRow, (validate_data_quality l).all
        (fun x => x.base.delivered_datetime.isSome && x.base.scheduled_datetime.isSome) = true) ∧
    (∀ x : XRow, x.base.delivered_datetime = none → valid_row x = false) := by
  constructor
  · intro l
    rw [List.all_eq_true]
    intro x hx
    have hv : valid_row x = true := List.of_mem_filter hx
    simp only [valid_row, Bool.and_eq_true] at hv
    have hge := hv.1.1.1.2
    unfold colGe2 at hge
    cases hd : x.base.delivered_datetime <;> cases hs : x.base.scheduled_datetime <;>
      rw [hd, hs] at hge <;> simp_all
  · intro x h
    simp [valid_row, colGe2, h]

/-- Witness for claim C9 at a concrete null-delivered row. -/
theorem claim_C9_witness :
    (validate_data_quality [transformRow { gRow with delivered_datetime := none }]).all
        (fun x => x.base.delivered_datetime.isSome && x.base.scheduled_datetime.isSome) = true ∧
    valid_row (transformRow { gRow with delivered_datetime := none }) = false :=
  ⟨claim_C9.1 [transformRow { gRow with delivered_datetime := none }],
    claim_C9.2 (transformRow { gRow with delivered_datetime := none }) rfl⟩

/-- Claim C10: the two computed columns `delivery_duration_minutes` and
`delay_minutes_calculated` coincide on every transformed row (both are the
delivered-minus-scheduled difference in minutes), while `on_time_status`
is computed from the upstream `delay_minutes` column; a concrete row with
`delay_minutes = -5` but a 60-minute computed difference is flagged on-time,
separating the two sources. -/
theorem claim_C10 :
    (∀ r : TRow,
      (transformRow r).delivery_duration_minutes = (transformRow r).delay_minutes_calculated ∧
      (transformRow r).delay_minutes_calculated
        = minutesDiff r.delivered_datetime r.scheduled_datetime ∧
      ((transformRow r).on_time_status = true ↔ ∃ d, r.delay_minutes = some d ∧ d ≤ 0)) ∧
    (transformRow { gRow with delay_minutes := some (-5) }).on_time_status = true ∧
    (transformRow { gRow with delay_minutes := some (-5) }).delay_minutes_calculated = some 60 ∧
    colGt (transformRow { gRow with delay_minutes := some (-5) }).delay_minutes_calculated 0
      = true := by
  refine ⟨fun r => ⟨rfl, rfl, ?_⟩, ?_, ?_, ?_⟩
  · unfold transformRow
    cases h : r.delay_minutes <;> simp [h]
  · simp [transformRow, gRow]
  · simp [transformRow, gRow, minutesDiff] <;> norm_num
  · simp [transformRow, gRow, minutesDiff, colGt] <;> norm_num

/-- The external environment of one pipeline run, fixed for its duration:
whether `config/settings.ini` exists, whether it has a `[snowflake]` section,
whether the credential keys are present and the engine URL can be built,
whether SQL statements against the warehouse succeed, and whether the
PostgreSQL source side is available. -/
structure Env where
  configExists : Bool
  sectionFound : Bool
  credsOk : Bool
  connectWorks : Bool
  sourceOk : Bool
deriving DecidableEq

/-- A Python exception escaping a function. -/
inductive Err where
  | fileNotFound
  | keyError
  | connError
deriving DecidableEq

/-- One invocation of the warehouse's mutation interface. -/
inductive WOp where
  | createTable
  | stageRows
  | merge
  | delete
  | insert
deriving DecidableEq

/-- `get_snowflake_connection` (`FA_load.py` lines 19-60): raises
`FileNotFoundError` when the configuration file is absent, `KeyError` when
the `[snowflake]` section is absent, and re-raises engine construction
errors.  Engine creation is lazy, so an unreachable warehouse does not fail
here. -/
def get_snowflake_connection (e : Env) : Except Err Unit :=
  if e.configExists then
    if e.sectionFound then
      if e.credsOk then .ok () else .error .connError
    else .error .keyError
  else .error .fileNotFound

/-- `verify_snowflake_connection` (`FA_load.py` lines 283-298): builds a
connection and executes a probe query, catching every exception; true only
when both steps succeed. -/
def verify_snowflake_connection (e : Env) : Bool :=
  match get_snowflake_connection e with
  | .ok _ => e.connectWorks
  | .error _ => false

/-- `count_records_in_snowflake` (`FA_load.py` lines 300-316): the
connection is built before the `try` block, so its exceptions escape; a
failing `COUNT(*)` query is caught and yields 0. -/
def count_records_in_snowflake {α : Type} (e : Env) (t : List (Nat × α)) : Except Err Nat :=
  match get_snowflake_connection e with
  | .error err => .error err
  | .ok _ => if e.connectWorks then .ok t.length else .ok 0

/-- The `DELIVERY_ID` column of a table state. -/
def tableKeys {α : Type} (t : List (Nat × α)) : List Nat := t.map Prod.fst

/-- `SELECT "DELIVERY_ID" FROM table` collected into a set
(`FA_load.py` lines 131-133): only membership in it is ever used. -/
def existing_ids {α : Type} (t : List (Nat × α)) : List Nat := tableKeys t

/-- `df_fixed[~df_fixed['DELIVERY_ID'].isin(existing_ids)]`
(`FA_load.py` line 137). -/
def new_df {α : Type} (t df : List (Nat × α)) : List (Nat × α) :=
  df.filter (fun r => decide (r.1 ∉ existing_ids t))

/-- `df_fixed[df_fixed['DELIVERY_ID'].isin(existing_ids)]`
(`FA_load.py` line 138). -/
def update_df {α : Type} (t df : List (Nat × α)) : List (Nat × α) :=
  df.filter (fun r => decide (r.1 ∈ existing_ids t))

/-- `pd.concat([new_df, update_df])` staged into the temporary table
(`FA_load.py` line 152). -/
def stagedRows {α : Type} (t df : List (Nat × α)) : List (Nat × α) :=
  new_df t df ++ update_df t df

/-- The effect of the `MERGE` statement on one target row: if a staged
source row has the same `DELIVERY_ID`, every non-key column is overwritten
with the source values (`WHEN MATCHED THEN UPDATE`, `FA_load.py`
lines 172-174); otherwise the row is untouched. -/
def mergeRow {α : Type} (src : List (Nat × α)) (row : Nat × α) : Nat × α :=
  match src.find? (fun s => decide (s.1 = row.1)) with
  | some s => (row.1, s.2)
  | none => row

/-- The table state after the `MERGE` statement (`FA_load.py` lines
168-180): matched target rows are overwritten, and every source row whose
key matches no target row is inserted (`WHEN NOT MATCHED THEN INSERT`). -/
def mergeApply {α : Type} (t src : List (Nat × α)) : List (Nat × α) :=
  t.map (mergeRow src) ++ src.filter (fun s => decide (s.1 ∉ tableKeys t))

/-- Snowflake's nondeterministic-merge error: a `MERGE` fails (by default)
when a single target row is matched by more than one source row; the raised
error is caught by the surrounding `except`. -/
def nondetMerge {α : Type} (t src : List (Nat × α)) : Bool :=
  t.any (fun row => decide (2 ≤ src.countP (fun s => decide (s.1 = row.1))))

/-- Source rows inserted by the merge. -/
def mergeInserted {α : Type} (t src : List (Nat × α)) : Nat :=
  src.countP (fun s => decide (s.1 ∉ tableKeys t))

/-- Target rows updated by the merge. -/
def mergeUpdated {α : Type} (t src : List (Nat × α)) : Nat :=
  t.countP (fun row => decide (row.1 ∈ tableKeys src))

/-- `upsert_to_snowflake` (`FA_load.py` lines 111-201): the primary merge
path.  An empty batch short-circuits to `(False, 0, 0)`; the connection is
built before the `try` block, so its exceptions escape; every SQL failure
inside the `try` (including a nondeterministic merge, rolled back by the
transaction) is caught and reported as `(False, 0, 0)`.  On success,
`new_count` is the table growth across the merge and `updated_count` is
`rowcount - new_count`, where `rowcount` counts inserted plus updated
rows. -/
def upsert_to_snowflake {α : Type} (e : Env) (t df : List (Nat × α)) :
    Except Err ((Bool × Nat × Nat) × List (Nat × α) × List WOp) :=
  if df.isEmpty then .ok ((false, 0, 0), t, [])
  else
    match get_snowflake_connection e with
    | .error err => .error err
    | .ok _ =>
      if e.connectWorks then
        if nondetMerge t (stagedRows t df) then .ok ((false, 0, 0), t, [.stageRows])
        else
          let merged := mergeApply t (stagedRows t df)
          let rows_affected :=
            mergeInserted t (stagedRows t df) + mergeUpdated t (stagedRows t df)
          let new_records_count := merged.length - t.length
          .ok ((true, new_records_count, rows_affected - new_records_count), merged,
            [.stageRows, .merge])
      else .ok ((false, 0, 0), t, [])

/-- `upsert_to_snowflake_alternative` (`FA_load.py` lines 203-281): the
fallback path.  Delete every target row whose key occurs in `update_df`
(batched `DELETE ... WHERE DELIVERY_ID IN (...)` over the distinct keys),
then append `pd.concat([new_df, update_df])` wholesale; reports
`(True, len(new_df), len(update_df))`. -/
def upsert_to_snowflake_alternative {α : Type} (e : Env) (t df : List (Nat × α)) :
    Except Err ((Bool × Nat × Nat) × List (Nat × α) × List WOp) :=
  if df.isEmpty then .ok ((false, 0, 0), t, [])
  else
    match get_snowflake_connection e with
    | .error err => .error err
    | .ok _ =>
      if e.connectWorks then
        let delKeys := (tableKeys (update_df t df)).dedup
        let afterDelete := t.filter (fun row => decide (row.1 ∉ delKeys))
        .ok ((true, (new_df t df).length, (update_df t df).length),
          afterDelete ++ (new_df t df ++ update_df t df),
          (if (update_df t df).isEmpty then [] else [.delete]) ++ [.insert])
      else .ok ((false, 0, 0), t, [])

/-- The Reconciler: the primary merge path with the fallback attempted
automatically exactly once when the primary reports failure
(`FA_load.py` lines 378-382, inside `load_complete_pipeline`). -/
def reconcile {α : Type} (e : Env) (t df : List (Nat × α)) :
    Except Err ((Bool × Nat × Nat) × List (Nat × α) × List WOp) :=
  match upsert_to_snowflake e t df with
  | .error err => .error err
  | .ok (r1, t1, ops1) =>
    if r1.1 then .ok (r1, t1, ops1)
    else
      match upsert_to_snowflake_alternative e t1 df with
      | .error err => .error err
      | .ok (r2, t2, ops2) => .ok (r2, t2, ops1 ++ ops2)

/-- `create_table_if_not_exists` (`FA_load.py` lines 62-99): catches every
exception and returns a boolean.  The target table is modelled as already
existing (its state is the `t` argument of the surrounding functions), so
the call succeeds exactly when the warehouse is reachable and performs no
mutation. -/
def create_table_if_not_exists (e : Env) : Bool := e.connectWorks

/-- `load_complete_pipeline` (`FA_load.py` lines 348-405): verify the
connection (fail-fast, caught), count records, run the read-only upsert
analysis, create the table if needed, run the primary upsert with the
automatic fallback, and count again; the final integrity comparison only
prints and returns `True` either way. -/
def load_complete_pipeline {α : Type} (e : Env) (t df : List (Nat × α)) :
    Except Err (Bool × List (Nat × α) × List WOp) :=
  if verify_snowflake_connection e then
    match count_records_in_snowflake e t with
    | .error err => .error err
    | .ok _ =>
      match get_snowflake_connection e with
      | .error err => .error err
      | .ok _ =>
        if create_table_if_not_exists e then
          match reconcile e t df with
          | .error err => .error err
          | .ok (r, t2, ops) =>
            if r.1 then
              match count_records_in_snowflake e t2 with
              | .error err => .error err
              | .ok _ => .ok (true, t2, ops)
            else .ok (false, t2, ops)
        else .ok (false, t, [])
  else .ok (false, t, [])

/-- `run_complete_etl` (`FA_main.py` lines 31-198): the Pipeline
Orchestrator.  Phase 1 checks the source side and verifies the Snowflake
connection; phase 2 loads the extracted batch and fails on an empty one
(line 113) before any transformation or load; phase 3 transforms and fails
on an empty result; phase 4 counts records and loads.  Every exception is
caught at the orchestrator boundary and reported as `False`. -/
def run_complete_etl (extra : Nat) (e : Env) (raw : List TRow)
    (t : List (Nat × (XRow × ℚ))) : Bool × List (Nat × (XRow × ℚ)) × List WOp :=
  if e.sourceOk then
    if verify_snowflake_connection e then
      if raw.isEmpty then (false, t, [])
      else
        let transformed := transform_complete_pipeline extra raw
        if transformed.isEmpty then (false, t, [])
        else
          match count_records_in_snowflake e t with
          | .error _ => (false, t, [])
          | .ok _ =>
            match load_complete_pipeline e t
                (transformed.map fun p => (p.1.base.delivery_id, p)) with
            | .ok (s, t2, ops) => (s, t2, ops)
            | .error _ => (false, t, [])
    else (false, t, [])
  else (false, t, [])

/-- The environment in which everything works, used by concrete runs. -/
def goodEnv : Env where
  configExists := true
  sectionFound := true
  credsOk := true
  connectWorks := true
  sourceOk := true

theorem tableKeys_cons {α : Type} (a : Nat × α) (l : List (Nat × α)) :
    tableKeys (a :: l) = a.1 :: tableKeys l := rfl

theorem tableKeys_append {α : Type} (l₁ l₂ : List (Nat × α)) :
    tableKeys (l₁ ++ l₂) = tableKeys l₁ ++ tableKeys l₂ :=
  List.map_append _ _ _

theorem tableKeys_length {α : Type} (l : List (Nat × α)) :
    (tableKeys l).length = l.length :=
  List.length_map _ _

theorem mem_tableKeys {α : Type} {k : Nat} {l : List (Nat × α)} :
    k ∈ tableKeys l ↔ ∃ v, (k, v) ∈ l := by
  constructor
  · intro h
    obtain ⟨p, hp, he⟩ := List.mem_map.mp h
    exact ⟨p.2, by rw [← he]; exact hp⟩
  · rintro ⟨v, hv⟩
    exact List.mem_map.mpr ⟨(k, v), hv, rfl⟩

theorem mem_tableKeys_of_mem {α : Type} {p : Nat × α} {l : List (Nat × α)}
    (h : p ∈ l) : p.1 ∈ tableKeys l :=
  List.mem_map_of_mem _ h

theorem mem_new_df {α : Type} {t df : List (Nat × α)} {r : Nat × α} :
    r ∈ new_df t df ↔ r ∈ df ∧ r.1 ∉ tableKeys t := by
  simp [new_df, existing_ids, List.mem_filter]

theorem mem_update_df {α : Type} {t df : List (Nat × α)} {r : Nat × α} :
    r ∈ update_df t df ↔ r ∈ df ∧ r.1 ∈ tableKeys t := by
  simp [update_df, existing_ids, List.mem_filter]

theorem stagedRows_perm {α : Type} (t df : List (Nat × α)) :
    (stagedRows t df).Perm df := by
  have hfun : (fun r : Nat × α => decide (r.1 ∉ existing_ids t))
      = (fun r : Nat × α => !decide (r.1 ∈ existing_ids t)) := by
    funext r
    simp [decide_not]
  unfold stagedRows new_df update_df
  rw [hfun]
  exact List.perm_append_comm.trans (List.filter_append_perm _ df)

theorem mem_stagedRows {α : Type} {t df : List (Nat × α)} {r : Nat × α} :
    r ∈ stagedRows t df ↔ r ∈ df :=
  (stagedRows_perm t df).mem_iff

theorem tableKeys_stagedRows_perm {α : Type} (t df : List (Nat × α)) :
    (tableKeys (stagedRows t df)).Perm (tableKeys df) :=
  (stagedRows_perm t df).map Prod.fst

theorem nodup_keys_stagedRows {α : Type} {df : List (Nat × α)}
    (hB : (tableKeys df).Nodup) (t : List (Nat × α)) :
    (tableKeys (stagedRows t df)).Nodup :=
  (tableKeys_stagedRows_perm t df).symm.nodup hB

theorem find?_key_eq_none {α : Type} {l : List (Nat × α)} {k : Nat} :
    l.find? (fun s => decide (s.1 = k)) = none ↔ k ∉ tableKeys l := by
  rw [List.find?_eq_none]
  constructor
  · intro h hk
    obtain ⟨v, hv⟩ := mem_tableKeys.mp hk
    exact h (k, v) hv (by simp)
  · intro h s hs
    simp only [decide_eq_true_eq]
    intro he
    exact h (he ▸ mem_tableKeys_of_mem hs)

theorem find?_key_of_nodup {α : Type} {l : List (Nat × α)}
    (h : (tableKeys l).Nodup) {p : Nat × α} (hp : p ∈ l) :
    l.find? (fun s => decide (s.1 = p.1)) = some p := by
  induction l with
  | nil => cases hp
  | cons a l ih =>
    rw [tableKeys_cons] at h
    have h2 := List.nodup_cons.mp h
    rcases List.mem_cons.mp hp with h1 | h1
    · subst h1
      simp [List.find?_cons]
    · have ha : a.1 ≠ p.1 := fun he => h2.1 (he ▸ mem_tableKeys_of_mem h1)
      simp only [List.find?_cons, ha, decide_eq_true_eq, if_false]
      exact ih h2.2 h1

theorem countP_key_le_one {α : Type} {l : List (Nat × α)}
    (h : (tableKeys l).Nodup) (k : Nat) :
    l.countP (fun s => decide (s.1 = k)) ≤ 1 := by
  induction l with
  | nil => simp
  | cons a l ih =>
    rw [tableKeys_cons] at h
    have h2 := List.nodup_cons.mp h
    rw [List.countP_cons]
    by_cases ha : a.1 = k
    · have hz : l.countP (fun s => decide (s.1 = k)) = 0 := by
        rw [List.countP_eq_zero]
        intro s hs
        simp only [decide_eq_true_eq]
        intro hk
        exact h2.1 (ha ▸ hk ▸ mem_tableKeys_of_mem hs)
      simp [ha, hz]
    · simpa [ha] using ih h2.2

theorem nondetMerge_eq_false {α : Type} {src : List (Nat × α)}
    (h : (tableKeys src).Nodup) (t : List (Nat × α)) :
    nondetMerge t src = false := by
  unfold nondetMerge
  rw [List.any_eq_false]
  intro row _
  simp only [decide_eq_true_eq]
  have := countP_key_le_one h row.1
  omega

theorem countP_mem_eq_length {K D : List Nat} (hK : K.Nodup) (hD : D.Nodup)
    (hsub : ∀ k ∈ D, k ∈ K) :
    K.countP (fun k => decide (k ∈ D)) = D.length := by
  rw [List.countP_eq_length_filter]
  have hfil : (K.filter (fun k => decide (k ∈ D))).Nodup := hK.filter _
  have hset : (K.filter (fun k => decide (k ∈ D))).toFinset = D.toFinset := by
    ext x
    simp only [List.mem_toFinset, List.mem_filter, decide_eq_true_eq]
    exact ⟨fun h => h.2, fun h => ⟨hsub x h, h⟩⟩
  have h1 := List.toFinset_card_of_nodup hfil
  have h2 := List.toFinset_card_of_nodup hD
  rw [← h1, hset, h2]

theorem fst_mergeRow {α : Type} (src : List (Nat × α)) (row : Nat × α) :
    (mergeRow src row).1 = row.1 := by
  unfold mergeRow
  cases h : src.find? (fun s => decide (s.1 = row.1)) <;> simp

theorem tableKeys_mergeApply {α : Type} (t src : List (Nat × α)) :
    tableKeys (mergeApply t src)
      = tableKeys t ++ tableKeys (src.filter (fun s => decide (s.1 ∉ tableKeys t))) := by
  unfold mergeApply
  rw [tableKeys_append]
  congr 1
  unfold tableKeys
  rw [List.map_map]
  exact List.map_congr_left (fun row _ => fst_mergeRow src row)

theorem staged_filter_not_mem {α : Type} (t df : List (Nat × α)) :
    (stagedRows t df).filter (fun s => decide (s.1 ∉ tableKeys t)) = new_df t df := by
  unfold stagedRows
  rw [List.filter_append]
  have h1 : (new_df t df).filter (fun s => decide (s.1 ∉ tableKeys t)) = new_df t df := by
    rw [List.filter_eq_self]
    intro a ha
    simp only [decide_eq_true_eq]
    exact (mem_new_df.mp ha).2
  have h2 : (update_df t df).filter (fun s => decide (s.1 ∉ tableKeys t)) = [] := by
    rw [List.filter_eq_nil_iff]
    intro a ha
    simp only [decide_eq_true_eq, not_not]
    exact (mem_update_df.mp ha).2
  rw [h1, h2, List.append_nil]

theorem mergeApply_staged_eq {α : Type} (t df : List (Nat × α)) :
    mergeApply t (stagedRows t df) = t.map (mergeRow (stagedRows t df)) ++ new_df t df := by
  unfold mergeApply
  rw [staged_filter_not_mem]

theorem tableKeys_mergeApply_staged {α : Type} (t df : List (Nat × α)) :
    tableKeys (mergeApply t (stagedRows t df)) = tableKeys t ++ tableKeys (new_df t df) := by
  rw [tableKeys_mergeApply, staged_filter_not_mem]

theorem mem_keys_new_df {α : Type} {t df : List (Nat × α)} {k : Nat} :
    k ∈ tableKeys (new_df t df) ↔ k ∈ tableKeys df ∧ k ∉ tableKeys t := by
  constructor
  · intro h
    obtain ⟨v, hv⟩ := mem_tableKeys.mp h
    have h2 := mem_new_df.mp hv
    exact ⟨mem_tableKeys.mpr ⟨v, h2.1⟩, h2.2⟩
  · rintro ⟨h1, h2⟩
    obtain ⟨v, hv⟩ := mem_tableKeys.mp h1
    exact mem_tableKeys.mpr ⟨v, mem_new_df.mpr ⟨hv, h2⟩⟩

theorem mem_keys_update_df {α : Type} {t df : List (Nat × α)} {k : Nat} :
    k ∈ tableKeys (update_df t df) ↔ k ∈ tableKeys df ∧ k ∈ tableKeys t := by
  constructor
  · intro h
    obtain ⟨v, hv⟩ := mem_tableKeys.mp h
    have h2 := mem_update_df.mp hv
    exact ⟨mem_tableKeys.mpr ⟨v, h2.1⟩, h2.2⟩
  · rintro ⟨h1, h2⟩
    obtain ⟨v, hv⟩ := mem_tableKeys.mp h1
    exact mem_tableKeys.mpr ⟨v, mem_update_df.mpr ⟨hv, h2⟩⟩

theorem nodup_keys_mergeApply {α : Type} {t df : List (Nat × α)}
    (hT : (tableKeys t).Nodup) (hB : (tableKeys df).Nodup) :
    (tableKeys (mergeApply t (stagedRows t df))).Nodup := by
  rw [tableKeys_mergeApply_staged]
  refine List.Nodup.append hT ?_ ?_
  · have hsub : List.Sublist (new_df t df) df := List.filter_sublist _
    exact (hsub.map Prod.fst).nodup hB
  · intro k hk1 hk2
    exact (mem_keys_new_df.mp hk2).2 hk1

theorem df_keys_sub_mergeApply {α : Type} (t df : List (Nat × α)) :
    ∀ k ∈ tableKeys df, k ∈ tableKeys (mergeApply t (stagedRows t df)) := by
  intro k hk
  rw [tableKeys_mergeApply_staged, List.mem_append]
  by_cases hkt : k ∈ tableKeys t
  · exact Or.inl hkt
  · exact Or.inr (mem_keys_new_df.mpr ⟨hk, hkt⟩)

theorem mergeApply_mem_df {α : Type} {t df : List (Nat × α)} {row : Nat × α}
    (h : row ∈ mergeApply t (stagedRows t df)) (hk : row.1 ∈ tableKeys df) :
    row ∈ df := by
  rcases List.mem_append.mp h with h1 | h2
  · obtain ⟨trow, htrow, heq⟩ := List.mem_map.mp h1
    unfold mergeRow at heq
    cases hf : (stagedRows t df).find? (fun s => decide (s.1 = trow.1)) with
    | none =>
      rw [hf] at heq
      exfalso
      rw [← heq] at hk
      have hks : trow.1 ∈ tableKeys (stagedRows t df) :=
        (tableKeys_stagedRows_perm t df).symm.subset hk
      exact (find?_key_eq_none.mp hf) hks
    | some s =>
      rw [hf] at heq
      have hs1 : s.1 = trow.1 := by simpa using List.find?_some hf
      have hsm : s ∈ stagedRows t df := List.mem_of_find?_eq_some hf
      have hrs : row = s := by rw [← heq, ← hs1]
      rw [hrs]
      exact mem_stagedRows.mp hsm
  · exact mem_stagedRows.mp (List.mem_filter.mp h2).1

/-- The table state produced by the fallback path on a nonempty batch with a
working connection (abbreviation for proofs). -/
def altFinal {α : Type} (t df : List (Nat × α)) : List (Nat × α) :=
  t.filter (fun row => decide (row.1 ∉ (tableKeys (update_df t df)).dedup)) ++
    (new_df t df ++ update_df t df)

theorem mergeRow_eq_of_some {α : Type} {src : List (Nat × α)} {p q : Nat × α}
    (h : src.find? (fun s => decide (s.1 = p.1)) = some q) :
    mergeRow src p = (p.1, q.2) := by
  unfold mergeRow
  rw [h]

theorem mergeRow_eq_of_none {α : Type} {src : List (Nat × α)} {p : Nat × α}
    (h : src.find? (fun s => decide (s.1 = p.1)) = none) :
    mergeRow src p = p := by
  unfold mergeRow
  rw [h]

theorem mem_mergeApply_iff {α : Type} {t df : List (Nat × α)}
    (hB : (tableKeys df).Nodup) {row : Nat × α} :
    row ∈ mergeApply t (stagedRows t df)
      ↔ ((row ∈ t ∧ row.1 ∉ tableKeys df) ∨ row ∈ df) := by
  rw [mergeApply_staged_eq, List.mem_append]
  constructor
  · rintro (h1 | h2)
    · obtain ⟨trow, htrow, heq⟩ := List.mem_map.mp h1
      cases hf : (stagedRows t df).find? (fun s => decide (s.1 = trow.1)) with
      | none =>
        rw [mergeRow_eq_of_none hf] at heq
        subst heq
        left
        refine ⟨htrow, fun hk => ?_⟩
        exact (find?_key_eq_none.mp hf) ((tableKeys_stagedRows_perm t df).symm.subset hk)
      | some s =>
        rw [mergeRow_eq_of_some hf] at heq
        have hs1 : s.1 = trow.1 := by simpa using List.find?_some hf
        have hsm : s ∈ stagedRows t df := List.mem_of_find?_eq_some hf
        right
        have hrs : row = s := by rw [← heq, ← hs1]
        rw [hrs]
        exact mem_stagedRows.mp hsm
    · exact Or.inr (mem_new_df.mp h2).1
  · rintro (⟨h1, h2⟩ | h1)
    · refine Or.inl (List.mem_map.mpr ⟨row, h1, ?_⟩)
      refine mergeRow_eq_of_none (find?_key_eq_none.mpr (fun hk => ?_))
      exact h2 ((tableKeys_stagedRows_perm t df).subset hk)
    · by_cases hkt : row.1 ∈ tableKeys t
      · obtain ⟨v, hv⟩ := mem_tableKeys.mp hkt
        refine Or.inl (List.mem_map.mpr ⟨(row.1, v), hv, ?_⟩)
        have hrowst : row ∈ stagedRows t df := mem_stagedRows.mpr h1
        have hf := find?_key_of_nodup (nodup_keys_stagedRows hB t) hrowst
        have := mergeRow_eq_of_some (p := (row.1, v)) hf
        rw [this]
      · exact Or.inr (mem_new_df.mpr ⟨h1, hkt⟩)

theorem mem_altFinal_iff {α : Type} {t df : List (Nat × α)} {row : Nat × α} :
    row ∈ altFinal t df ↔ ((row ∈ t ∧ row.1 ∉ tableKeys df) ∨ row ∈ df) := by
  unfold altFinal
  have hkt : row ∈ t → row.1 ∈ tableKeys t := fun h => mem_tableKeys_of_mem h
  simp only [List.mem_append, List.mem_filter, decide_eq_true_eq, List.mem_dedup,
    mem_keys_update_df, mem_new_df, mem_update_df]
  constructor
  · rintro (⟨h1, h2⟩ | (⟨h1, _⟩ | ⟨h1, _⟩))
    · exact Or.inl ⟨h1, fun hk => h2 ⟨hk, hkt h1⟩⟩
    · exact Or.inr h1
    · exact Or.inr h1
  · rintro (⟨h1, h2⟩ | h1)
    · exact Or.inl ⟨h1, fun hk => h2 hk.1⟩
    · by_cases hk : row.1 ∈ tableKeys t
      · exact Or.inr (Or.inr ⟨h1, hk⟩)
      · exact Or.inr (Or.inl ⟨h1, hk⟩)

theorem nodup_keys_altFinal {α : Type} {t df : List (Nat × α)}
    (hT : (tableKeys t).Nodup) (hB : (tableKeys df).Nodup) :
    (tableKeys (altFinal t df)).Nodup := by
  unfold altFinal
  rw [tableKeys_append]
  refine List.Nodup.append ?_ ?_ ?_
  · exact ((List.filter_sublist _).map Prod.fst).nodup hT
  · exact nodup_keys_stagedRows hB t
  · intro k hk1 hk2
    obtain ⟨v, hv⟩ := mem_tableKeys.mp hk1
    have hf := List.mem_filter.mp hv
    simp only [decide_eq_true_eq, List.mem_dedup] at hf
    have hkdf : k ∈ tableKeys df := (tableKeys_stagedRows_perm t df).subset hk2
    have hkt2 : k ∈ tableKeys t := mem_tableKeys_of_mem hf.1
    exact hf.2 (mem_keys_update_df.mpr ⟨hkdf, hkt2⟩)

theorem primary_perm_alt {α : Type} {t df : List (Nat × α)}
    (hT : (tableKeys t).Nodup) (hB : (tableKeys df).Nodup) :
    (mergeApply t (stagedRows t df)).Perm (altFinal t df) := by
  have h1 := nodup_keys_mergeApply hT hB
  have h2 := nodup_keys_altFinal hT hB
  rw [List.perm_ext_iff_of_nodup (List.Nodup.of_map _ h1) (List.Nodup.of_map _ h2)]
  intro row
  rw [mem_mergeApply_iff hB, mem_altFinal_iff]

theorem verify_inv {e : Env} (hv : verify_snowflake_connection e = true) :
    get_snowflake_connection e = .ok () ∧ e.connectWorks = true := by
  unfold verify_snowflake_connection at hv
  cases hc : get_snowflake_connection e with
  | error err => rw [hc] at hv; exact absurd hv (by simp)
  | ok u => cases u; rw [hc] at hv; exact ⟨rfl, hv⟩

theorem upsert_empty {α : Type} (e : Env) (t : List (Nat × α)) :
    upsert_to_snowflake e t [] = .ok ((false, 0, 0), t, []) := by
  unfold upsert_to_snowflake
  simp

theorem upsert_alt_empty {α : Type} (e : Env) (t : List (Nat × α)) :
    upsert_to_snowflake_alternative e t [] = .ok ((false, 0, 0), t, []) := by
  unfold upsert_to_snowflake_alternative
  simp

theorem upsert_conn_error {α : Type} {e : Env} {err : Err} (t df : List (Nat × α))
    (hc : get_snowflake_connection e = .error err) (hdf : df ≠ []) :
    upsert_to_snowflake e t df = .error err := by
  unfold upsert_to_snowflake
  rw [hc]
  simp [hdf]

theorem upsert_no_connect {α : Type} {e : Env} (t df : List (Nat × α))
    (hc : get_snowflake_connection e = .ok ()) (hw : e.connectWorks = false)
    (hdf : df ≠ []) :
    upsert_to_snowflake e t df = .ok ((false, 0, 0), t, []) := by
  unfold upsert_to_snowflake
  rw [hc]
  simp [hdf, hw]

theorem upsert_alt_no_connect {α : Type} {e : Env} (t df : List (Nat × α))
    (hc : get_snowflake_connection e = .ok ()) (hw : e.connectWorks = false)
    (hdf : df ≠ []) :
    upsert_to_snowflake_alternative e t df = .ok ((false, 0, 0), t, []) := by
  unfold upsert_to_snowflake_alternative
  rw [hc]
  simp [hdf, hw]

theorem upsert_nondet {α : Type} {e : Env} (t df : List (Nat × α))
    (hc : get_snowflake_connection e = .ok ()) (hw : e.connectWorks = true)
    (hdf : df ≠ []) (hnd : nondetMerge t (stagedRows t df) = true) :
    upsert_to_snowflake e t df = .ok ((false, 0, 0), t, [.stageRows]) := by
  unfold upsert_to_snowflake
  rw [hc]
  simp [hdf, hw, hnd]

theorem upsert_merge_ok {α : Type} {e : Env} (t df : List (Nat × α))
    (hc : get_snowflake_connection e = .ok ()) (hw : e.connectWorks = true)
    (hdf : df ≠ []) (hnd : nondetMerge t (stagedRows t df) = false) :
    upsert_to_snowflake e t df
      = .ok ((true, (mergeApply t (stagedRows t df)).length - t.length,
          mergeInserted t (stagedRows t df) + mergeUpdated t (stagedRows t df)
            - ((mergeApply t (stagedRows t df)).length - t.length)),
        mergeApply t (stagedRows t df), [.stageRows, .merge]) := by
  unfold upsert_to_snowflake
  rw [hc]
  simp [hdf, hw, hnd]

theorem upsert_alt_ok {α : Type} {e : Env} (t df : List (Nat × α))
    (hc : get_snowflake_connection e = .ok ()) (hw : e.connectWorks = true)
    (hdf : df ≠ []) :
    upsert_to_snowflake_alternative e t df
      = .ok ((true, (new_df t df).length, (update_df t df).length), altFinal t df,
          (if (update_df t df).isEmpty then [] else [.delete]) ++ [.insert]) := by
  unfold upsert_to_snowflake_alternative altFinal
  rw [hc]
  simp [hdf, hw]

theorem reconcile_empty {α : Type} (e : Env) (t : List (Nat × α)) :
    reconcile e t [] = .ok ((false, 0, 0), t, []) := by
  unfold reconcile
  rw [upsert_empty]
  simp [upsert_alt_empty]

theorem reconcile_conn_error {α : Type} {e : Env} {err : Err} (t df : List (Nat × α))
    (hc : get_snowflake_connection e = .error err) (hdf : df ≠ []) :
    reconcile e t df = .error err := by
  unfold reconcile
  rw [upsert_conn_error t df hc hdf]

theorem reconcile_no_connect {α : Type} {e : Env} (t df : List (Nat × α))
    (hc : get_snowflake_connection e = .ok ()) (hw : e.connectWorks = false)
    (hdf : df ≠ []) :
    reconcile e t df = .ok ((false, 0, 0), t, []) := by
  unfold reconcile
  rw [upsert_no_connect t df hc hw hdf]
  simp [upsert_alt_no_connect t df hc hw hdf]

theorem reconcile_of_primary_ok {α : Type} {e : Env} {t df t2 : List (Nat × α)}
    {n u : Nat} {ops : List WOp}
    (h : upsert_to_snowflake e t df = .ok ((true, n, u), t2, ops)) :
    reconcile e t df = .ok ((true, n, u), t2, ops) := by
  unfold reconcile
  rw [h]
  simp

theorem reconcile_of_nondet {α : Type} {e : Env} (t df : List (Nat × α))
    (hc : get_snowflake_connection e = .ok ()) (hw : e.connectWorks = true)
    (hdf : df ≠ []) (hnd : nondetMerge t (stagedRows t df) = true) :
    reconcile e t df
      = .ok ((true, (new_df t df).length, (update_df t df).length), altFinal t df,
          WOp.stageRows ::
            ((if (update_df t df).isEmpty then [] else [.delete]) ++ [.insert])) := by
  unfold reconcile
  rw [upsert_nondet t df hc hw hdf hnd]
  simp [upsert_alt_ok t df hc hw hdf]

theorem new_df_eq_nil_of_sub {α : Type} {t1 df : List (Nat × α)}
    (hsub : ∀ k ∈ tableKeys df, k ∈ tableKeys t1) : new_df t1 df = [] := by
  unfold new_df
  rw [List.filter_eq_nil_iff]
  intro r hr
  simp only [existing_ids, decide_eq_true_eq, not_not]
  exact hsub r.1 (mem_tableKeys_of_mem hr)

theorem update_df_eq_self_of_sub {α : Type} {t1 df : List (Nat × α)}
    (hsub : ∀ k ∈ tableKeys df, k ∈ tableKeys t1) : update_df t1 df = df := by
  unfold update_df
  rw [List.filter_eq_self]
  intro r hr
  simp only [existing_ids, decide_eq_true_eq]
  exact hsub r.1 (mem_tableKeys_of_mem hr)

theorem staged_eq_self_of_sub {α : Type} {t1 df : List (Nat × α)}
    (hsub : ∀ k ∈ tableKeys df, k ∈ tableKeys t1) : stagedRows t1 df = df := by
  unfold stagedRows
  rw [new_df_eq_nil_of_sub hsub, update_df_eq_self_of_sub hsub, List.nil_append]

theorem mergeInserted_eq_zero_of_sub {α : Type} {t1 df : List (Nat × α)}
    (hsub : ∀ k ∈ tableKeys df, k ∈ tableKeys t1) : mergeInserted t1 df = 0 := by
  unfold mergeInserted
  rw [List.countP_eq_zero]
  intro s hs
  simp only [decide_eq_true_eq, not_not]
  exact hsub s.1 (mem_tableKeys_of_mem hs)

theorem mergeUpdated_eq_length {α : Type} {t1 df : List (Nat × α)}
    (hT1 : (tableKeys t1).Nodup) (hB : (tableKeys df).Nodup)
    (hsub : ∀ k ∈ tableKeys df, k ∈ tableKeys t1) :
    mergeUpdated t1 df = df.length := by
  have h1 : (tableKeys t1).countP (fun k => decide (k ∈ tableKeys df))
      = t1.countP (fun row => decide (row.1 ∈ tableKeys df)) := List.countP_map _ _ _
  unfold mergeUpdated
  rw [← h1, countP_mem_eq_length hT1 hB hsub, tableKeys_length]

theorem mergeApply_eq_self {α : Type} {t1 df : List (Nat × α)}
    (hB : (tableKeys df).Nodup)
    (hmem : ∀ row ∈ t1, row.1 ∈ tableKeys df → row ∈ df)
    (hsub : ∀ k ∈ tableKeys df, k ∈ tableKeys t1) :
    mergeApply t1 (stagedRows t1 df) = t1 := by
  rw [mergeApply_staged_eq, new_df_eq_nil_of_sub hsub, List.append_nil]
  have hrow : ∀ row ∈ t1, mergeRow (stagedRows t1 df) row = row := by
    intro row hrowm
    by_cases hk : row.1 ∈ tableKeys df
    · have hst : row ∈ stagedRows t1 df := mem_stagedRows.mpr (hmem row hrowm hk)
      have hnd : (tableKeys (stagedRows t1 df)).Nodup := nodup_keys_stagedRows hB t1
      rw [mergeRow_eq_of_some (find?_key_of_nodup hnd hst)]
    · refine mergeRow_eq_of_none (find?_key_eq_none.mpr (fun hks => hk ?_))
      exact (tableKeys_stagedRows_perm t1 df).subset hks
  calc t1.map (mergeRow (stagedRows t1 df))
      = t1.map id := List.map_congr_left (fun a ha => hrow a ha)
    _ = t1 := List.map_id t1

theorem mergeApply_staged_length {α : Type} (t df : List (Nat × α)) :
    (mergeApply t (stagedRows t df)).length = t.length + (new_df t df).length := by
  rw [mergeApply_staged_eq, List.length_append, List.length_map]

theorem mergeInserted_staged {α : Type} (t df : List (Nat × α)) :
    mergeInserted t (stagedRows t df) = (new_df t df).length := by
  unfold mergeInserted
  rw [List.countP_eq_length_filter, staged_filter_not_mem]

theorem upsert_ok_table {α : Type} {e : Env} {t df : List (Nat × α)}
    {r : Bool × Nat × Nat} {t2 : List (Nat × α)} {ops : List WOp}
    (h : upsert_to_snowflake e t df = .ok (r, t2, ops)) :
    t2 = t ∨ t2 = mergeApply t (stagedRows t df) := by
  unfold upsert_to_snowflake at h
  split at h
  · simp only [Except.ok.injEq, Prod.mk.injEq] at h
    exact Or.inl h.2.1.symm
  · split at h
    · exact absurd h (by simp)
    · split at h
      · split at h
        · simp only [Except.ok.injEq, Prod.mk.injEq] at h
          exact Or.inl h.2.1.symm
        · simp only [Except.ok.injEq, Prod.mk.injEq] at h
          exact Or.inr h.2.1.symm
      · simp only [Except.ok.injEq, Prod.mk.injEq] at h
        exact Or.inl h.2.1.symm

theorem upsert_alt_ok_table {α : Type} {e : Env} {t df : List (Nat × α)}
    {r : Bool × Nat × Nat} {t2 : List (Nat × α)} {ops : List WOp}
    (h : upsert_to_snowflake_alternative e t df = .ok (r, t2, ops)) :
    t2 = t ∨ t2 = altFinal t df := by
  unfold upsert_to_snowflake_alternative at h
  split at h
  · simp only [Except.ok.injEq, Prod.mk.injEq] at h
    exact Or.inl h.2.1.symm
  · split at h
    · exact absurd h (by simp)
    · split at h
      · simp only [Except.ok.injEq, Prod.mk.injEq] at h
        exact Or.inr h.2.1.symm
      · simp only [Except.ok.injEq, Prod.mk.injEq] at h
        exact Or.inl h.2.1.symm

theorem reconcile_no_raise {α : Type} {e : Env} (hc : get_snowflake_connection e = .ok ())
    (t df : List (Nat × α)) : ∃ out, reconcile e t df = .ok out := by
  by_cases hdf : df = []
  · exact ⟨_, by subst hdf; exact reconcile_empty e t⟩
  · cases hw : e.connectWorks with
    | false => exact ⟨_, reconcile_no_connect t df hc hw hdf⟩
    | true =>
      cases hnd : nondetMerge t (stagedRows t df) with
      | false => exact ⟨_, reconcile_of_primary_ok (upsert_merge_ok t df hc hw hdf hnd)⟩
      | true => exact ⟨_, reconcile_of_nondet t df hc hw hdf hnd⟩

/-- Counterexample to claim C1 as stated: against a pre-existing table that
holds two rows with the same `DELIVERY_ID` (1), reconciling the one-row batch
`[(1, 30)]` (pairwise-distinct ids) succeeds, and reconciling the identical
batch again succeeds with the table unchanged but reports
`updated_count = 2`, not `len(batch) = 1`: the merge updates every matching
target row and `rowcount` counts both. -/
theorem claim_C1_counterexample :
    (tableKeys [((1 : Nat), (30 : Nat))]).Nodup ∧
    reconcile goodEnv [((1 : Nat), (10 : Nat)), (1, 20)] [(1, 30)]
      = .ok ((true, 0, 2), [(1, 30), (1, 30)], [WOp.stageRows, WOp.merge]) ∧
    reconcile goodEnv [((1 : Nat), (30 : Nat)), (1, 30)] [(1, 30)]
      = .ok ((true, 0, 2), [(1, 30), (1, 30)], [WOp.stageRows, WOp.merge]) ∧
    ([((1 : Nat), (30 : Nat))]).length = 1 := by
  refine ⟨by decide, by rfl, by rfl, by rfl⟩

/-- Claim C1 (amended): if additionally the target table's `DELIVERY_ID`
values are pairwise distinct before the first run, then after one successful
reconciliation of a batch with pairwise-distinct ids, running the Reconciler
again with the identical batch succeeds with `new_count = 0`,
`updated_count = len(batch)`, and the table row content unchanged. -/
theorem claim_C1_amended {α : Type} (e : Env) (t df t1 : List (Nat × α))
    (n u : Nat) (ops : List WOp)
    (hT : (tableKeys t).Nodup) (hB : (tableKeys df).Nodup)
    (h1 : reconcile e t df = .ok ((true, n, u), t1, ops)) :
    reconcile e t1 df = .ok ((true, 0, df.length), t1, [WOp.stageRows, WOp.merge]) := by
  by_cases hdf : df = []
  · subst hdf
    rw [reconcile_empty] at h1
    simp at h1
  cases hc : get_snowflake_connection e with
  | error err =>
    rw [reconcile_conn_error t df hc hdf] at h1
    simp at h1
  | ok uu =>
    cases uu
    cases hw : e.connectWorks with
    | false =>
      rw [reconcile_no_connect t df hc hw hdf] at h1
      simp at h1
    | true =>
      have hnd : nondetMerge t (stagedRows t df) = false :=
        nondetMerge_eq_false (nodup_keys_stagedRows hB t) t
      rw [reconcile_of_primary_ok (upsert_merge_ok t df hc hw hdf hnd)] at h1
      have ht1 : t1 = mergeApply t (stagedRows t df) := by
        simp only [Except.ok.injEq, Prod.mk.injEq] at h1
        exact h1.2.1.symm
      subst ht1
      have hT1 : (tableKeys (mergeApply t (stagedRows t df))).Nodup :=
        nodup_keys_mergeApply hT hB
      have hsub : ∀ k ∈ tableKeys df, k ∈ tableKeys (mergeApply t (stagedRows t df)) :=
        df_keys_sub_mergeApply t df
      have hmem : ∀ row ∈ mergeApply t (stagedRows t df), row.1 ∈ tableKeys df → row ∈ df :=
        fun row hr hk => mergeApply_mem_df hr hk
      have hnd2 : nondetMerge (mergeApply t (stagedRows t df))
          (stagedRows (mergeApply t (stagedRows t df)) df) = false :=
        nondetMerge_eq_false (nodup_keys_stagedRows hB _) _
      have hup2 := upsert_merge_ok (mergeApply t (stagedRows t df)) df hc hw hdf hnd2
      have hMeq := mergeApply_eq_self hB hmem hsub
      have hins : mergeInserted (mergeApply t (stagedRows t df))
          (stagedRows (mergeApply t (stagedRows t df)) df) = 0 := by
        rw [staged_eq_self_of_sub hsub]
        exact mergeInserted_eq_zero_of_sub hsub
      have hupd : mergeUpdated (mergeApply t (stagedRows t df))
          (stagedRows (mergeApply t (stagedRows t df)) df) = df.length := by
        rw [staged_eq_self_of_sub hsub]
        exact mergeUpdated_eq_length hT1 hB hsub
      rw [hMeq, hins, hupd, Nat.sub_self] at hup2
      simp only [Nat.zero_add, Nat.sub_zero] at hup2
      exact reconcile_of_primary_ok hup2

/-- Witness for (amended) claim C1: a concrete successful first run followed
by the second run reporting `(0, len(batch))` and leaving the table as it
was. -/
theorem claim_C1_amended_witness :
    reconcile goodEnv [((1 : Nat), (30 : Nat)), (2, 40)] [(1, 30), (2, 40)]
      = .ok ((true, 0, 2), [(1, 30), (2, 40)], [WOp.stageRows, WOp.merge]) :=
  claim_C1_amended goodEnv [((1 : Nat), (10 : Nat))] [(1, 30), (2, 40)]
    [(1, 30), (2, 40)] 1 1 [WOp.stageRows, WOp.merge]
    (by decide) (by decide) (by rfl)

/-- Counterexample to claim C2 as stated: on the batch `[(1, 5), (1, 7)]`
(duplicate `DELIVERY_ID`) against the table `[(1, 0)]` the primary merge path
fails (Snowflake's nondeterministic-merge error) leaving the table `[(1, 0)]`,
while the fallback delete-then-insert path succeeds and produces
`[(1, 5), (1, 7)]`: the two final states are not content-equivalent, and
after the primary path key 1 does not carry the batch's values. -/
theorem claim_C2_counterexample :
    upsert_to_snowflake goodEnv [((1 : Nat), (0 : Nat))] [(1, 5), (1, 7)]
      = .ok ((false, 0, 0), [(1, 0)], [WOp.stageRows]) ∧
    upsert_to_snowflake_alternative goodEnv [((1 : Nat), (0 : Nat))] [(1, 5), (1, 7)]
      = .ok ((true, 0, 2), [(1, 5), (1, 7)], [WOp.delete, WOp.insert]) ∧
    ¬ ((([((1 : Nat), (0 : Nat))] : List (Nat × Nat)) : Multiset (Nat × Nat))
        = (([(1, 5), (1, 7)] : List (Nat × Nat)) : Multiset (Nat × Nat))) := by
  refine ⟨by rfl, by rfl, by decide⟩

/-- Claim C2 (amended): when the target's keys and the batch's keys are each
pairwise distinct (the counterexample forces both), the primary merge path
and the fallback delete-then-insert path both report their result, their
final table states are the same multiset of rows, and in the final state
every row whose key occurs in the batch is literally a batch row. -/
theorem claim_C2_amended {α : Type} (e : Env) (t df : List (Nat × α))
    (hT : (tableKeys t).Nodup) (hB : (tableKeys df).Nodup)
    (hv : verify_snowflake_connection e = true) :
    ∃ r1 t1 ops1 r2 t2 ops2,
      upsert_to_snowflake e t df = .ok (r1, t1, ops1) ∧
      upsert_to_snowflake_alternative e t df = .ok (r2, t2, ops2) ∧
      ((t1 : List (Nat × α)) : Multiset (Nat × α)) = ((t2 : List (Nat × α)) : Multiset (Nat × α)) ∧
      ∀ row ∈ t1, row.1 ∈ tableKeys df → row ∈ df := by
  obtain ⟨hc, hw⟩ := verify_inv hv
  by_cases hdf : df = []
  · subst hdf
    refine ⟨_, _, _, _, _, _, upsert_empty e t, upsert_alt_empty e t, rfl, ?_⟩
    intro row hrow hk
    simp [tableKeys] at hk
  · have hnd := nondetMerge_eq_false (nodup_keys_stagedRows hB t) t
    refine ⟨_, _, _, _, _, _, upsert_merge_ok t df hc hw hdf hnd,
      upsert_alt_ok t df hc hw hdf, ?_, ?_⟩
    · exact Multiset.coe_eq_coe.mpr (primary_perm_alt hT hB)
    · exact fun row hrow hk => mergeApply_mem_df hrow hk

/-- Witness for (amended) claim C2 at a concrete table and batch. -/
theorem claim_C2_amended_witness :
    ∃ r1 t1 ops1 r2 t2 ops2,
      upsert_to_snowflake goodEnv [((1 : Nat), (0 : Nat))] [(1, 5), (2, 7)]
        = .ok (r1, t1, ops1) ∧
      upsert_to_snowflake_alternative goodEnv [((1 : Nat), (0 : Nat))] [(1, 5), (2, 7)]
        = .ok (r2, t2, ops2) ∧
      ((t1 : List (Nat × Nat)) : Multiset (Nat × Nat))
        = ((t2 : List (Nat × Nat)) : Multiset (Nat × Nat)) ∧
      ∀ row ∈ t1, row.1 ∈ tableKeys [((1 : Nat), (5 : Nat)), (2, 7)] → row ∈ [(1, 5), (2, 7)] :=
  claim_C2_amended goodEnv [((1 : Nat), (0 : Nat))] [(1, 5), (2, 7)]
    (by decide) (by decide) (by decide)

/-- Claim C3: the Reconciler classifies exactly the batch rows whose key is
absent from the target as new and the rest as updates; after reconciliation
(primary path, or fallback when the primary fails) the target's key set is
exactly the union of the old key set and the batch's key set, and every final
row whose key occurs in the batch is literally a batch row (full-row
overwrite).  In particular, with target keys `{1,2,3}` and batch keys
`{2,3,4,5}`, rows 4 and 5 are classified new, 2 and 3 update, and the final
key set is exactly `{1,2,3,4,5}` with rows 2 and 3 holding the batch's
values. -/
theorem claim_C3 {α : Type} (e : Env) (t df : List (Nat × α))
    (hv : verify_snowflake_connection e = true) :
    (new_df t df = df.filter (fun r => decide (r.1 ∉ tableKeys t)) ∧
     update_df t df = df.filter (fun r => decide (r.1 ∈ tableKeys t))) ∧
    (∃ r t2 ops, reconcile e t df = .ok (r, t2, ops) ∧
      (∀ k, k ∈ tableKeys t2 ↔ (k ∈ tableKeys t ∨ k ∈ tableKeys df)) ∧
      (∀ row ∈ t2, row.1 ∈ tableKeys df → row ∈ df)) ∧
    (tableKeys (new_df [((1 : Nat), (0 : Nat)), (2, 0), (3, 0)]
        [(2, 20), (3, 30), (4, 40), (5, 50)]) = [4, 5] ∧
     tableKeys (update_df [((1 : Nat), (0 : Nat)), (2, 0), (3, 0)]
        [(2, 20), (3, 30), (4, 40), (5, 50)]) = [2, 3] ∧
     reconcile goodEnv [((1 : Nat), (0 : Nat)), (2, 0), (3, 0)]
        [(2, 20), (3, 30), (4, 40), (5, 50)]
       = .ok ((true, 2, 2), [(1, 0), (2, 20), (3, 30), (4, 40), (5, 50)],
           [WOp.stageRows, WOp.merge])) := by
  obtain ⟨hc, hw⟩ := verify_inv hv
  refine ⟨⟨rfl, rfl⟩, ?_, by decide, by decide, by rfl⟩
  by_cases hdf : df = []
  · subst hdf
    refine ⟨(false, 0, 0), t, [], reconcile_empty e t, ?_, ?_⟩
    · intro k
      simp [tableKeys]
    · intro row hrow hk
      simp [tableKeys] at hk
  · cases hnd : nondetMerge t (stagedRows t df) with
    | false =>
      refine ⟨_, _, _, reconcile_of_primary_ok (upsert_merge_ok t df hc hw hdf hnd), ?_, ?_⟩
      · intro k
        rw [tableKeys_mergeApply_staged, List.mem_append]
        constructor
        · rintro (h | h)
          · exact Or.inl h
          · exact Or.inr (mem_keys_new_df.mp h).1
        · rintro (h | h)
          · exact Or.inl h
          · by_cases hkt : k ∈ tableKeys t
            · exact Or.inl hkt
            · exact Or.inr (mem_keys_new_df.mpr ⟨h, hkt⟩)
      · exact fun row hrow hk => mergeApply_mem_df hrow hk
    | true =>
      refine ⟨_, _, _, reconcile_of_nondet t df hc hw hdf hnd, ?_, ?_⟩
      · intro k
        constructor
        · intro hk
          rcases mem_tableKeys.mp hk with ⟨v, hvm⟩
          rcases mem_altFinal_iff.mp hvm with ⟨h1, _⟩ | h1
          · exact Or.inl (mem_tableKeys_of_mem h1)
          · exact Or.inr (mem_tableKeys_of_mem h1)
        · intro hk
          rcases hk with hk | hk
          · rcases mem_tableKeys.mp hk with ⟨v, hvm⟩
            by_cases hkd : k ∈ tableKeys df
            · obtain ⟨w, hw2⟩ := mem_tableKeys.mp hkd
              exact mem_tableKeys.mpr ⟨w, mem_altFinal_iff.mpr (Or.inr hw2)⟩
            · exact mem_tableKeys.mpr ⟨v, mem_altFinal_iff.mpr (Or.inl ⟨hvm, hkd⟩)⟩
          · obtain ⟨w, hw2⟩ := mem_tableKeys.mp hk
            exact mem_tableKeys.mpr ⟨w, mem_altFinal_iff.mpr (Or.inr hw2)⟩
      · intro row hrow hk
        rcases mem_altFinal_iff.mp hrow with ⟨_, h2⟩ | h1
        · exact absurd hk h2
        · exact h1

/-- Witness for claim C3 at a concrete environment, table and batch. -/
theorem claim_C3_witness :
    (new_df [((1 : Nat), (0 : Nat))] [(1, 5), (2, 7)]
        = [(1, 5), (2, 7)].filter (fun r => decide (r.1 ∉ tableKeys [((1 : Nat), (0 : Nat))])) ∧
     update_df [((1 : Nat), (0 : Nat))] [(1, 5), (2, 7)]
        = [(1, 5), (2, 7)].filter (fun r => decide (r.1 ∈ tableKeys [((1 : Nat), (0 : Nat))]))) ∧
    (∃ r t2 ops, reconcile goodEnv [((1 : Nat), (0 : Nat))] [(1, 5), (2, 7)] = .ok (r, t2, ops) ∧
      (∀ k, k ∈ tableKeys t2
          ↔ (k ∈ tableKeys [((1 : Nat), (0 : Nat))] ∨ k ∈ tableKeys [((1 : Nat), (5 : Nat)), (2, 7)])) ∧
      (∀ row ∈ t2, row.1 ∈ tableKeys [((1 : Nat), (5 : Nat)), (2, 7)] → row ∈ [(1, 5), (2, 7)])) ∧
    (tableKeys (new_df [((1 : Nat), (0 : Nat)), (2, 0), (3, 0)]
        [(2, 20), (3, 30), (4, 40), (5, 50)]) = [4, 5] ∧
     tableKeys (update_df [((1 : Nat), (0 : Nat)), (2, 0), (3, 0)]
        [(2, 20), (3, 30), (4, 40), (5, 50)]) = [2, 3] ∧
     reconcile goodEnv [((1 : Nat), (0 : Nat)), (2, 0), (3, 0)]
        [(2, 20), (3, 30), (4, 40), (5, 50)]
       = .ok ((true, 2, 2), [(1, 0), (2, 20), (3, 30), (4, 40), (5, 50)],
           [WOp.stageRows, WOp.merge])) :=
  claim_C3 goodEnv [((1 : Nat), (0 : Nat))] [(1, 5), (2, 7)] (by decide)

/-- Counterexample to claim C4 as stated: reconciling the batch
`[(2, 7), (2, 8)]` (duplicate `DELIVERY_ID` 2, both new) into the table
`[(1, 5)]` succeeds on the primary merge path and leaves two rows with key 2:
`COUNT(DISTINCT delivery_id) = 2` while `COUNT(*) = 3`. -/
theorem claim_C4_counterexample :
    upsert_to_snowflake goodEnv [((1 : Nat), (5 : Nat))] [(2, 7), (2, 8)]
      = .ok ((true, 2, 0), [(1, 5), (2, 7), (2, 8)], [WOp.stageRows, WOp.merge]) ∧
    (tableKeys [((1 : Nat), (5 : Nat)), (2, 7), (2, 8)]).dedup.length = 2 ∧
    ([((1 : Nat), (5 : Nat)), (2, 7), (2, 8)]).length = 3 := by
  refine ⟨by rfl, by decide, by decide⟩

/-- Claim C4 (amended): when the target's keys and the batch's keys are each
pairwise distinct (the counterexample forces the batch condition; the dual
counterexample of C1 forces the target condition), every table state produced
by either the primary merge path or the fallback delete-then-insert path has
pairwise-distinct `DELIVERY_ID`s, i.e. `COUNT(DISTINCT delivery_id) = COUNT(*)`. -/
theorem claim_C4_amended {α : Type} (e : Env) (t df : List (Nat × α))
    (hT : (tableKeys t).Nodup) (hB : (tableKeys df).Nodup) :
    (∀ r t2 ops, upsert_to_snowflake e t df = .ok (r, t2, ops) → (tableKeys t2).Nodup) ∧
    (∀ r t2 ops, upsert_to_snowflake_alternative e t df = .ok (r, t2, ops) →
      (tableKeys t2).Nodup) := by
  constructor
  · intro r t2 ops h
    rcases upsert_ok_table h with h2 | h2 <;> subst h2
    · exact hT
    · exact nodup_keys_mergeApply hT hB
  · intro r t2 ops h
    rcases upsert_alt_ok_table h with h2 | h2 <;> subst h2
    · exact hT
    · exact nodup_keys_altFinal hT hB

/-- Witness for (amended) claim C4 at a concrete table and batch. -/
theorem claim_C4_amended_witness :
    (∀ r t2 ops, upsert_to_snowflake goodEnv [((1 : Nat), (5 : Nat))] [(1, 6), (2, 7)]
        = .ok (r, t2, ops) → (tableKeys t2).Nodup) ∧
    (∀ r t2 ops, upsert_to_snowflake_alternative goodEnv [((1 : Nat), (5 : Nat))] [(1, 6), (2, 7)]
        = .ok (r, t2, ops) → (tableKeys t2).Nodup) :=
  claim_C4_amended goodEnv [((1 : Nat), (5 : Nat))] [(1, 6), (2, 7)] (by decide) (by decide)

/-- Claim C7: for every environment (including a missing configuration file,
a missing configuration section, and an unreachable warehouse) and every
batch and table state, the load pipeline returns an ordinary
`(success, diagnostics)` value: no exception escapes its boundary.  The
fail-fast connection verification catches every connection error before the
unprotected connection constructions are reached. -/
theorem claim_C7 (α : Type) (e : Env) (t df : List (Nat × α)) :
    (load_complete_pipeline e t df).isOk = true := by
  unfold load_complete_pipeline
  cases hv : verify_snowflake_connection e with
  | false => simp [Except.isOk, Except.toBool]
  | true =>
    obtain ⟨hc, hw⟩ := verify_inv hv
    have hcount : ∀ s : List (Nat × α), count_records_in_snowflake e s = .ok s.length := by
      intro s
      unfold count_records_in_snowflake
      rw [hc]
      simp [hw]
    rw [hcount t, hc]
    simp only [create_table_if_not_exists, hw, if_true]
    obtain ⟨⟨r, t2, ops⟩, hrec⟩ := reconcile_no_raise hc t df
    rw [hrec]
    cases hr : r.1 <;> simp [hr, hcount t2, Except.isOk, Except.toBool]

/-- Claim C8: on an empty incoming batch the Pipeline Orchestrator returns a
failure result, the warehouse table is untouched, and no operation of the
warehouse's mutation interface (staging, merge, delete, insert, table
creation) is invoked. -/
theorem claim_C8 (extra : Nat) (e : Env) (t : List (Nat × (XRow × ℚ))) :
    run_complete_etl extra e [] t = (false, t, []) := by
  unfold run_complete_etl
  cases hs : e.sourceOk <;> cases hv : verify_snowflake_connection e <;> simp
